import Mathlib

-- Verification of the OTP authentication core of the take-notes server
-- (src/server/index.ts), modelled shallowly: the Mongo-backed user
-- collection becomes an explicit list of account records threaded through
-- each route handler, request handling becomes a pure function from the
-- request data, the store, the current wall-clock time in milliseconds and
-- the collaborators (random draw, email transport, token signer) to an
-- HTTP-style response together with the updated store, the mails handed to
-- the transport and the log lines.  The catch-all 500 branches guard
-- storage/signing exceptions; storage and signing are total here, so those
-- branches are unreachable in the model and are omitted.

namespace TakeNotes

-- An account record, after the UserSchema (name, unique email, optional
-- dateOfBirth, nullable otp string, nullable otpExpires Date).  Dates are
-- epoch milliseconds.  `id` models the Mongo-assigned document id.
structure User where
  name : String
  email : String
  dateOfBirth : Option String
  otp : Option String
  otpExpires : Option Nat
  id : String
deriving DecidableEq

-- The JSON body a handler sends: HTTP status, the optional `success`
-- flag, the `message` field, and the optional `token` field.
structure ApiResponse where
  status : Nat
  success : Option Bool
  message : String
  token : Option String
deriving DecidableEq

-- A mail handed to the nodemailer transport; toAddr is the `to` field.
structure Email where
  toAddr : String
  subject : String
  text : String
deriving DecidableEq

-- What one request produces: the response, the user collection after the
-- request, the mails handed to the transport, and console log lines.
structure HandlerResult where
  response : ApiResponse
  store : List User
  mails : List Email
  logs : List String
deriving DecidableEq

-- User.findOne on the email key (the email field is unique).
def findOne (store : List User) (email : String) : Option User :=
  store.find? fun u => u.email == email

-- user.save() on an already-stored document: replace the record holding
-- this (unique) email.
def updateUser (store : List User) (u : User) : List User :=
  store.map fun v => if v.email == u.email then u else v

-- JS truthiness of a nullable string: undefined and the empty string are
-- falsy (`!user.otp`).
def jsTruthyStr : Option String → Bool
  | none => false
  | some s => !(s == "")

-- Math.floor(100000 + Math.random() * 900000): the random draw r is the
-- value Math.random() returned, a rational in [0, 1).
def genOtp (r : ℚ) : Nat :=
  (Rat.floor ((100000 : ℚ) + r * 900000)).toNat

-- OTP lifetime: the handlers set otpExpires = Date.now() + 10 * 60 * 1000.
def otpLifetimeMs : Nat := 10 * 60 * 1000

-- The shared reject test of the signup and login completion handlers:
-- `!user.otp || user.otp !== otp || !user.otpExpires ||
--  new Date() > user.otpExpires`.
-- A Date object is always truthy, so `!user.otpExpires` is exactly the
-- undefined case, and Date comparison is numeric on epoch milliseconds.
def otpInvalid (user : User) (submitted : String) (now : Nat) : Bool :=
  !jsTruthyStr user.otp || !(user.otp == some submitted) ||
    match user.otpExpires with
    | none => true
    | some e => decide (e < now)

-- sendEmail: tries the transport and logs the outcome; a transport error
-- is caught and logged, never rethrown.  Returns the mails handed to the
-- transport and the log lines.
def sendEmail (transport : Email → Except String Unit) (toAddr subject text : String) :
    List Email × List String :=
  let mail : Email := ⟨toAddr, subject, text⟩
  match transport mail with
  | Except.ok _ => ([mail], ["Email sent to " ++ toAddr])
  | Except.error e => ([mail], ["Error sending email to " ++ toAddr ++ ": " ++ e])

-- POST /api/auth/request-signup-otp.  `newId` models the document id Mongo
-- assigns to the freshly created user.
def requestSignupOtp (transport : Email → Except String Unit) (store : List User)
    (name : String) (dateOfBirth : Option String) (email : String)
    (r : ℚ) (now : Nat) (newId : String) : HandlerResult :=
  match findOne store email with
  | some _ =>
    ⟨⟨400, none, "User with this email already exists.", none⟩, store, [], []⟩
  | none =>
    let otp := toString (genOtp r)
    let otpExpires := now + otpLifetimeMs
    let newUser : User := ⟨name, email, dateOfBirth, some otp, some otpExpires, newId⟩
    let store1 := store ++ [newUser]
    let sent := sendEmail transport email "Your Sign-up OTP"
      ("Your OTP for notes-app sign up is: " ++ otp)
    ⟨⟨200, some true, "OTP sent successfully.", none⟩, store1, sent.1, sent.2⟩

-- POST /api/auth/signup.  `sign` models jwt.sign on the payload holding
-- the user id (the 1-hour token expiry lives inside the signed token).
def signup (store : List User) (email otp : String) (now : Nat)
    (sign : String → String) : HandlerResult :=
  match findOne store email with
  | none => ⟨⟨400, none, "Invalid email.", none⟩, store, [], []⟩
  | some user =>
    if otpInvalid user otp now then
      ⟨⟨400, none, "Invalid or expired OTP.", none⟩, store, [], []⟩
    else
      let user1 : User := { user with otp := none, otpExpires := none }
      let store1 := updateUser store user1
      ⟨⟨200, some true, "Signup successful.", some (sign user.id)⟩, store1, [], []⟩

-- POST /api/auth/request-otp (login challenge).
def requestOtp (transport : Email → Except String Unit) (store : List User)
    (email : String) (r : ℚ) (now : Nat) : HandlerResult :=
  match findOne store email with
  | none => ⟨⟨404, none, "User not found. Please sign up first.", none⟩, store, [], []⟩
  | some user =>
    let otp := toString (genOtp r)
    let user1 : User := { user with otp := some otp, otpExpires := some (now + otpLifetimeMs) }
    let store1 := updateUser store user1
    let sent := sendEmail transport email "Your Login OTP"
      ("Your OTP for notes-app login is: " ++ otp)
    ⟨⟨200, some true, "OTP sent successfully.", none⟩, store1, sent.1, sent.2⟩

-- POST /api/auth/login.
def login (store : List User) (email otp : String) (now : Nat)
    (sign : String → String) : HandlerResult :=
  match findOne store email with
  | none => ⟨⟨400, none, "Invalid credentials.", none⟩, store, [], []⟩
  | some user =>
    if otpInvalid user otp now then
      ⟨⟨400, none, "Invalid or expired OTP.", none⟩, store, [], []⟩
    else
      let user1 : User := { user with otp := none, otpExpires := none }
      let store1 := updateUser store user1
      ⟨⟨200, some true, "Login successful.", some (sign user.id)⟩, store1, [], []⟩

-- What authMiddleware does with a request: short-circuit with a status and
-- message, or attach the decoded user id and call next().
inductive AuthDecision where
  | unauthorized (status : Nat) (message : String)
  | proceed (userId : String)
deriving DecidableEq

-- JS String.prototype.split with a single-character separator, on the
-- character list of the string: "a b".split(' ') = ["a","b"],
-- "".split(' ') = [""], "a  b".split(' ') = ["a","","b"].
def splitCharsOn (sep : Char) : List Char → List (List Char)
  | [] => [[]]
  | c :: cs =>
    if c = sep then [] :: splitCharsOn sep cs
    else
      match splitCharsOn sep cs with
      | [] => [[c]]
      | g :: gs => (c :: g) :: gs

def jsSplit (s : String) (sep : Char) : List String :=
  (splitCharsOn sep s.data).map List.asString

-- req.header('Authorization')?.split(' ')[1]: none when the header is
-- absent or has fewer than two space-separated segments.
def extractToken (header : Option String) : Option String :=
  header.bind fun h => (jsSplit h ' ')[1]?

-- authMiddleware.  `verify` models jwt.verify with the server secret
-- (an external collaborator): the decoded user id on a validly signed,
-- unexpired token, none when verification throws.  `!token` is true for
-- an undefined token and for the empty string; the `error` detail field
-- of the invalid-token body is not modelled.
def authMiddleware (verify : String → Option String) (header : Option String) :
    AuthDecision :=
  match extractToken header with
  | none => AuthDecision.unauthorized 401 "No token, authorization denied."
  | some t =>
    if t == "" then AuthDecision.unauthorized 401 "No token, authorization denied."
    else
      match verify t with
      | some uid => AuthDecision.proceed uid
      | none => AuthDecision.unauthorized 401 "Token is not valid."

-- Spec-side acceptance predicate for OTP validation, written from the
-- specification's words with the expiry comparison amended to "at or
-- before": a pending challenge exists (stored code and expiry both
-- present, the code non-empty), the submitted code equals the stored code
-- under exact string comparison, and the current time is at or before the
-- stored expiry.
def acceptSpec (store : List User) (email code : String) (now : Nat) : Prop :=
  ∃ u, findOne store email = some u ∧ u.otp = some code ∧ code ≠ "" ∧
    ∃ e, u.otpExpires = some e ∧ now ≤ e

-- Helper lemmas about the store operations.

theorem findOne_email (store : List User) (email : String) (u : User)
    (h : findOne store email = some u) : u.email = email := by
  have := List.find?_some h
  simpa using this

theorem findOne_updateUser (store : List User) (u' : User) :
    findOne (updateUser store u') u'.email =
      (findOne store u'.email).map fun _ => u' := by
  induction store with
  | nil => rfl
  | cons v vs ih =>
    by_cases h : v.email == u'.email
    · simp [findOne, updateUser, List.find?, h] at ih ⊢
    · simp [findOne, updateUser, List.find?, h] at ih ⊢
      exact ih

theorem findOne_append_none (store : List User) (email : String) (u : User)
    (h : findOne store email = none) (hu : u.email = email) :
    findOne (store ++ [u]) email = some u := by
  unfold findOne at h ⊢
  rw [List.find?_append, h]
  simp [hu]

theorem otpInvalid_eq_false_iff (u : User) (code : String) (now : Nat) :
    otpInvalid u code now = false ↔
      (u.otp = some code ∧ code ≠ "" ∧ ∃ e, u.otpExpires = some e ∧ now ≤ e) := by
  unfold otpInvalid jsTruthyStr
  cases ho : u.otp with
  | none => simp
  | some c =>
    cases he : u.otpExpires with
    | none => simp
    | some e =>
      by_cases h1 : c = code
      · subst h1
        by_cases h2 : c = ""
        · subst h2; simp
        · simp [h2]
      · simp [h1]

theorem acceptSpec_iff_of_findOne (store : List User) (email code : String)
    (now : Nat) (u : User) (hf : findOne store email = some u) :
    acceptSpec store email code now ↔ otpInvalid u code now = false := by
  rw [otpInvalid_eq_false_iff]
  unfold acceptSpec
  constructor
  · rintro ⟨u', hu', rest⟩
    rw [hf] at hu'
    cases Option.some.inj hu'
    exact rest
  · intro h
    exact ⟨u, hf, h⟩

theorem acceptSpec_false_of_findOne_none (store : List User) (email code : String)
    (now : Nat) (hf : findOne store email = none) :
    ¬ acceptSpec store email code now := by
  rintro ⟨u, hu, _⟩
  rw [hf] at hu
  cases hu

/-- C1 (amended): in both the signup-completion and the login-completion
handlers, OTP validation accepts (HTTP 200) if and only if a pending
challenge exists on the account, the submitted code equals the stored code
under exact string comparison, and the current time is at or before the
stored expiry timestamp; in every other case it rejects.  (The code is
rejected only strictly after the expiry instant, not already at it.) -/
theorem validate_accepts_iff (store : List User) (email code : String) (now : Nat)
    (sign : String → String) :
    ((signup store email code now sign).response.status = 200 ↔
      acceptSpec store email code now) ∧
    ((login store email code now sign).response.status = 200 ↔
      acceptSpec store email code now) := by
  constructor
  · unfold signup
    cases hf : findOne store email with
    | none =>
      simp only []
      exact iff_of_false (by simp) (acceptSpec_false_of_findOne_none store email code now hf)
    | some u =>
      rw [acceptSpec_iff_of_findOne store email code now u hf]
      cases hi : otpInvalid u code now <;> simp [hi]
  · unfold login
    cases hf : findOne store email with
    | none =>
      simp only []
      exact iff_of_false (by simp) (acceptSpec_false_of_findOne_none store email code now hf)
    | some u =>
      rw [acceptSpec_iff_of_findOne store email code now u hf]
      cases hi : otpInvalid u code now <;> simp [hi]

/-- C1 counterexample: with the stored code "123456" and stored expiry
1000, the login-completion handler run at now = 1000 with the matching
code accepts (HTTP 200), although the current time is not strictly before
the stored expiry — refuting "ACCEPT only if strictly before". -/
theorem accepts_at_expiry_instant :
    (login [⟨"A", "a@x.com", none, some "123456", some 1000, "id1"⟩]
        "a@x.com" "123456" 1000 (fun i => i)).response.status = 200 ∧
      ¬ (1000 < 1000) := by decide

/-- C5: a signup-challenge request for an email that already has an
account fails with HTTP 400 "User with this email already exists.", the
store (in particular the existing account's challenge fields) is
unchanged, no mail is handed to the transport and nothing is logged. -/
theorem signup_request_existing_email (transport : Email → Except String Unit)
    (store : List User) (nm : String) (dob : Option String) (email : String)
    (r : ℚ) (now : Nat) (newId : String) (u : User)
    (hf : findOne store email = some u) :
    requestSignupOtp transport store nm dob email r now newId =
      ⟨⟨400, none, "User with this email already exists.", none⟩, store, [], []⟩ := by
  unfold requestSignupOtp
  rw [hf]

/-- C5 witness. -/
theorem signup_request_existing_email_witness :
    requestSignupOtp (fun _ => Except.ok ())
        [⟨"A", "a@x.com", none, some "111111", some 1000, "id1"⟩]
        "B" none "a@x.com" 0 5 "id2" =
      ⟨⟨400, none, "User with this email already exists.", none⟩,
        [⟨"A", "a@x.com", none, some "111111", some 1000, "id1"⟩], [], []⟩ :=
  signup_request_existing_email (fun _ => Except.ok ())
    [⟨"A", "a@x.com", none, some "111111", some 1000, "id1"⟩]
    "B" none "a@x.com" 0 5 "id2"
    ⟨"A", "a@x.com", none, some "111111", some 1000, "id1"⟩ (by decide)

/-- C9: a login-challenge request for an email with no account fails with
HTTP 404 "User not found. Please sign up first.", the store is unchanged,
no mail is handed to the transport and nothing is logged. -/
theorem login_request_unknown_email (transport : Email → Except String Unit)
    (store : List User) (email : String) (r : ℚ) (now : Nat)
    (hf : findOne store email = none) :
    requestOtp transport store email r now =
      ⟨⟨404, none, "User not found. Please sign up first.", none⟩, store, [], []⟩ := by
  unfold requestOtp
  rw [hf]

/-- C9 witness. -/
theorem login_request_unknown_email_witness :
    requestOtp (fun _ => Except.ok ()) [] "a@x.com" 0 5 =
      ⟨⟨404, none, "User not found. Please sign up first.", none⟩, [], [], []⟩ :=
  login_request_unknown_email (fun _ => Except.ok ()) [] "a@x.com" 0 5 rfl

/-- C6: whenever OTP validation rejects (the completion handler does not
answer 200), the store — and with it the account's stored challenge
fields — is unchanged by the request, for both the signup-completion and
the login-completion handlers. -/
theorem reject_preserves_store (store : List User) (email code : String)
    (now : Nat) (sign : String → String) :
    ((signup store email code now sign).response.status ≠ 200 →
      (signup store email code now sign).store = store) ∧
    ((login store email code now sign).response.status ≠ 200 →
      (login store email code now sign).store = store) := by
  constructor
  · intro h
    unfold signup at *
    cases hf : findOne store email with
    | none => rfl
    | some u =>
      cases hi : otpInvalid u code now with
      | true => simp [hi]
      | false => rw [hf] at h; simp [hi] at h
  · intro h
    unfold login at *
    cases hf : findOne store email with
    | none => rfl
    | some u =>
      cases hi : otpInvalid u code now with
      | true => simp [hi]
      | false => rw [hf] at h; simp [hi] at h

/-- C6 witness: a wrong code against a pending challenge. -/
theorem reject_preserves_store_witness :
    ((signup [⟨"A", "a@x.com", none, some "111111", some 1000, "id1"⟩]
        "a@x.com" "222222" 5 (fun i => i)).response.status ≠ 200 →
      (signup [⟨"A", "a@x.com", none, some "111111", some 1000, "id1"⟩]
        "a@x.com" "222222" 5 (fun i => i)).store =
          [⟨"A", "a@x.com", none, some "111111", some 1000, "id1"⟩]) ∧
    ((login [⟨"A", "a@x.com", none, some "111111", some 1000, "id1"⟩]
        "a@x.com" "222222" 5 (fun i => i)).response.status ≠ 200 →
      (login [⟨"A", "a@x.com", none, some "111111", some 1000, "id1"⟩]
        "a@x.com" "222222" 5 (fun i => i)).store =
          [⟨"A", "a@x.com", none, some "111111", some 1000, "id1"⟩]) :=
  reject_preserves_store [⟨"A", "a@x.com", none, some "111111", some 1000, "id1"⟩]
    "a@x.com" "222222" 5 (fun i => i)

theorem cleared_user_rejects (store1 : List User) (email code : String)
    (now' : Nat) (sign' : String → String) (u1 : User)
    (hf : findOne store1 email = some u1) (ho : u1.otp = none) :
    (signup store1 email code now' sign').response.status = 400 ∧
    (login store1 email code now' sign').response.status = 400 := by
  have hi : otpInvalid u1 code now' = true := by
    simp [otpInvalid, jsTruthyStr, ho]
  constructor
  · unfold signup
    rw [hf]
    simp [hi]
  · unfold login
    rw [hf]
    simp [hi]

theorem accepted_store_shape (store : List User) (email code : String) (now : Nat)
    (sign : String → String) (u : User) (hf : findOne store email = some u)
    (hi : otpInvalid u code now = false) :
    (signup store email code now sign).store =
      updateUser store { u with otp := none, otpExpires := none } ∧
    (login store email code now sign).store =
      updateUser store { u with otp := none, otpExpires := none } := by
  constructor
  · unfold signup
    rw [hf]
    simp [hi]
  · unfold login
    rw [hf]
    simp [hi]

theorem findOne_after_clear (store : List User) (email : String) (u : User)
    (hf : findOne store email = some u) :
    findOne (updateUser store { u with otp := none, otpExpires := none }) email =
      some { u with otp := none, otpExpires := none } := by
  have hemail : u.email = email := findOne_email store email u hf
  subst hemail
  have h2 := findOne_updateUser store { u with otp := none, otpExpires := none }
  simp only [] at h2
  rw [hf] at h2
  simpa using h2

/-- C4: whenever a completion handler accepts a pending challenge, the
persisted account has both challenge fields cleared in the returned store,
and a subsequent submission of the same code against either completion
handler on that store is rejected with HTTP 400 (replay is always
rejected).  Stated for acceptance through the signup handler and through
the login handler. -/
theorem accept_clears_challenge_and_rejects_replay (store : List User)
    (email code : String) (now now' : Nat) (sign sign' : String → String) :
    ((signup store email code now sign).response.status = 200 →
      ((findOne (signup store email code now sign).store email).map
          fun u1 => (u1.otp, u1.otpExpires)) = some (none, none) ∧
      (signup (signup store email code now sign).store email code now' sign').response.status = 400 ∧
      (login (signup store email code now sign).store email code now' sign').response.status = 400) ∧
    ((login store email code now sign).response.status = 200 →
      ((findOne (login store email code now sign).store email).map
          fun u1 => (u1.otp, u1.otpExpires)) = some (none, none) ∧
      (signup (login store email code now sign).store email code now' sign').response.status = 400 ∧
      (login (login store email code now sign).store email code now' sign').response.status = 400) := by
  constructor
  · intro h
    cases hf : findOne store email with
    | none =>
      unfold signup at h
      rw [hf] at h
      simp at h
    | some u =>
      cases hi : otpInvalid u code now with
      | true =>
        unfold signup at h
        rw [hf] at h
        simp [hi] at h
      | false =>
        have hst := (accepted_store_shape store email code now sign u hf hi).1
        have hfind := findOne_after_clear store email u hf
        rw [← hst] at hfind
        have hrej := cleared_user_rejects (signup store email code now sign).store
          email code now' sign' _ hfind rfl
        exact ⟨by rw [hfind]; rfl, hrej.1, hrej.2⟩
  · intro h
    cases hf : findOne store email with
    | none =>
      unfold login at h
      rw [hf] at h
      simp at h
    | some u =>
      cases hi : otpInvalid u code now with
      | true =>
        unfold login at h
        rw [hf] at h
        simp [hi] at h
      | false =>
        have hst := (accepted_store_shape store email code now sign u hf hi).2
        have hfind := findOne_after_clear store email u hf
        rw [← hst] at hfind
        have hrej := cleared_user_rejects (login store email code now sign).store
          email code now' sign' _ hfind rfl
        exact ⟨by rw [hfind]; rfl, hrej.1, hrej.2⟩

/-- C4 witness: a matching, unexpired code is accepted once and the same
code replayed against the cleared store is rejected by both handlers. -/
theorem accept_clears_challenge_and_rejects_replay_witness :
    (signup [⟨"A", "a@x.com", none, some "111111", some 1000, "id1"⟩]
        "a@x.com" "111111" 5 (fun i => i)).response.status = 200 ∧
    (((findOne (signup [⟨"A", "a@x.com", none, some "111111", some 1000, "id1"⟩]
          "a@x.com" "111111" 5 (fun i => i)).store "a@x.com").map
        fun u1 => (u1.otp, u1.otpExpires)) = some (none, none) ∧
      (signup (signup [⟨"A", "a@x.com", none, some "111111", some 1000, "id1"⟩]
          "a@x.com" "111111" 5 (fun i => i)).store
        "a@x.com" "111111" 6 (fun i => i)).response.status = 400 ∧
      (login (signup [⟨"A", "a@x.com", none, some "111111", some 1000, "id1"⟩]
          "a@x.com" "111111" 5 (fun i => i)).store
        "a@x.com" "111111" 6 (fun i => i)).response.status = 400) :=
  ⟨by decide,
    (accept_clears_challenge_and_rejects_replay
      [⟨"A", "a@x.com", none, some "111111", some 1000, "id1"⟩]
      "a@x.com" "111111" 5 6 (fun i => i) (fun i => i)).1 (by decide)⟩

theorem genOtp_range (r : ℚ) (h0 : 0 ≤ r) (h1 : r < 1) :
    100000 ≤ genOtp r ∧ genOtp r ≤ 999999 := by
  unfold genOtp
  have hq : Rat.floor ((100000 : ℚ) + r * 900000) = ⌊(100000 : ℚ) + r * 900000⌋ := rfl
  rw [hq]
  have hlo : (100000 : ℤ) ≤ ⌊(100000 : ℚ) + r * 900000⌋ := by
    rw [Int.le_floor]
    push_cast
    nlinarith
  have hhi : ⌊(100000 : ℚ) + r * 900000⌋ < 1000000 := by
    rw [Int.floor_lt]
    push_cast
    nlinarith
  omega

theorem requestSignupOtp_stores_challenge (transport : Email → Except String Unit)
    (store : List User) (nm : String) (dob : Option String) (email : String)
    (r : ℚ) (now : Nat) (newId : String) (hf : findOne store email = none) :
    findOne (requestSignupOtp transport store nm dob email r now newId).store email =
      some ⟨nm, email, dob, some (toString (genOtp r)), some (now + 10 * 60 * 1000), newId⟩ := by
  unfold requestSignupOtp
  rw [hf]
  exact findOne_append_none store email _ hf rfl

theorem requestOtp_stores_challenge (transport : Email → Except String Unit)
    (store : List User) (email : String) (r : ℚ) (now : Nat) (u : User)
    (hf : findOne store email = some u) :
    findOne (requestOtp transport store email r now).store email =
      some { u with otp := some (toString (genOtp r)),
                    otpExpires := some (now + 10 * 60 * 1000) } := by
  unfold requestOtp
  rw [hf]
  have hemail : u.email = email := findOne_email store email u hf
  subst hemail
  have h2 := findOne_updateUser store
    { u with otp := some (toString (genOtp r)), otpExpires := some (now + 10 * 60 * 1000) }
  simp only [] at h2
  rw [hf] at h2
  simpa [otpLifetimeMs] using h2

/-- C7: every issued challenge code is a number in 100000..999999, and
both challenge-issuing handlers persist exactly its decimal string with an
expiry equal to the issuance time plus 10 minutes (600000 ms): stated for
the signup-challenge handler on a fresh email and the login-challenge
handler on an existing account. -/
theorem issued_code_range_and_expiry (transport : Email → Except String Unit)
    (s1 s2 : List User) (nm : String) (dob : Option String)
    (email1 email2 newId : String) (u : User) (r : ℚ) (now : Nat)
    (h0 : 0 ≤ r) (h1 : r < 1)
    (hf1 : findOne s1 email1 = none) (hf2 : findOne s2 email2 = some u) :
    (100000 ≤ genOtp r ∧ genOtp r ≤ 999999) ∧
    findOne (requestSignupOtp transport s1 nm dob email1 r now newId).store email1 =
      some ⟨nm, email1, dob, some (toString (genOtp r)), some (now + 10 * 60 * 1000), newId⟩ ∧
    findOne (requestOtp transport s2 email2 r now).store email2 =
      some { u with otp := some (toString (genOtp r)),
                    otpExpires := some (now + 10 * 60 * 1000) } :=
  ⟨genOtp_range r h0 h1,
    requestSignupOtp_stores_challenge transport s1 nm dob email1 r now newId hf1,
    requestOtp_stores_challenge transport s2 email2 r now u hf2⟩

/-- C7 witness at the draw r = 1/2. -/
theorem issued_code_range_and_expiry_witness :
    (100000 ≤ genOtp (1/2) ∧ genOtp (1/2) ≤ 999999) ∧
    findOne (requestSignupOtp (fun _ => Except.ok ()) [] "A" none "a@x.com"
        (1/2) 7 "id1").store "a@x.com" =
      some ⟨"A", "a@x.com", none, some (toString (genOtp (1/2))),
        some (7 + 10 * 60 * 1000), "id1"⟩ ∧
    findOne (requestOtp (fun _ => Except.ok ())
        [⟨"B", "b@x.com", none, none, none, "id2"⟩] "b@x.com" (1/2) 7).store "b@x.com" =
      some ⟨"B", "b@x.com", none, some (toString (genOtp (1/2))),
        some (7 + 10 * 60 * 1000), "id2"⟩ :=
  issued_code_range_and_expiry (fun _ => Except.ok ()) []
    [⟨"B", "b@x.com", none, none, none, "id2"⟩] "A" none "a@x.com" "b@x.com" "id1"
    ⟨"B", "b@x.com", none, none, none, "id2"⟩ (1/2) 7
    (by norm_num) (by norm_num) rfl (by decide)

/-- C8: when the email transport fails on every mail, both
challenge-request handlers still return HTTP 200 success, the challenge
write is kept in the store (not rolled back), and the delivery failure is
only logged. -/
theorem email_failure_not_rolled_back (s1 s2 : List User) (nm : String)
    (dob : Option String) (email1 email2 newId errMsg : String) (u : User)
    (r : ℚ) (now : Nat) (transport : Email → Except String Unit)
    (hfail : ∀ m, transport m = Except.error errMsg)
    (hf1 : findOne s1 email1 = none) (hf2 : findOne s2 email2 = some u) :
    (requestSignupOtp transport s1 nm dob email1 r now newId).response =
      ⟨200, some true, "OTP sent successfully.", none⟩ ∧
    findOne (requestSignupOtp transport s1 nm dob email1 r now newId).store email1 =
      some ⟨nm, email1, dob, some (toString (genOtp r)), some (now + 10 * 60 * 1000), newId⟩ ∧
    (requestSignupOtp transport s1 nm dob email1 r now newId).logs =
      ["Error sending email to " ++ email1 ++ ": " ++ errMsg] ∧
    (requestOtp transport s2 email2 r now).response =
      ⟨200, some true, "OTP sent successfully.", none⟩ ∧
    findOne (requestOtp transport s2 email2 r now).store email2 =
      some { u with otp := some (toString (genOtp r)),
                    otpExpires := some (now + 10 * 60 * 1000) } ∧
    (requestOtp transport s2 email2 r now).logs =
      ["Error sending email to " ++ email2 ++ ": " ++ errMsg] := by
  refine ⟨?_, requestSignupOtp_stores_challenge transport s1 nm dob email1 r now newId hf1,
    ?_, ?_, requestOtp_stores_challenge transport s2 email2 r now u hf2, ?_⟩
  · unfold requestSignupOtp
    rw [hf1]
  · unfold requestSignupOtp sendEmail
    rw [hf1]
    simp [hfail]
  · unfold requestOtp
    rw [hf2]
  · unfold requestOtp sendEmail
    rw [hf2]
    simp [hfail]

/-- C8 witness: a transport that always fails. -/
theorem email_failure_not_rolled_back_witness :
    (requestSignupOtp (fun _ => Except.error "boom") [] "A" none "a@x.com" 0 7 "id1").response =
      ⟨200, some true, "OTP sent successfully.", none⟩ ∧
    findOne (requestSignupOtp (fun _ => Except.error "boom") [] "A" none "a@x.com"
        0 7 "id1").store "a@x.com" =
      some ⟨"A", "a@x.com", none, some (toString (genOtp 0)), some (7 + 10 * 60 * 1000), "id1"⟩ ∧
    (requestSignupOtp (fun _ => Except.error "boom") [] "A" none "a@x.com" 0 7 "id1").logs =
      ["Error sending email to " ++ "a@x.com" ++ ": " ++ "boom"] ∧
    (requestOtp (fun _ => Except.error "boom")
        [⟨"B", "b@x.com", none, none, none, "id2"⟩] "b@x.com" 0 7).response =
      ⟨200, some true, "OTP sent successfully.", none⟩ ∧
    findOne (requestOtp (fun _ => Except.error "boom")
        [⟨"B", "b@x.com", none, none, none, "id2"⟩] "b@x.com" 0 7).store "b@x.com" =
      some ⟨"B", "b@x.com", none, some (toString (genOtp 0)), some (7 + 10 * 60 * 1000), "id2"⟩ ∧
    (requestOtp (fun _ => Except.error "boom")
        [⟨"B", "b@x.com", none, none, none, "id2"⟩] "b@x.com" 0 7).logs =
      ["Error sending email to " ++ "b@x.com" ++ ": " ++ "boom"] :=
  email_failure_not_rolled_back [] [⟨"B", "b@x.com", none, none, none, "id2"⟩]
    "A" none "a@x.com" "b@x.com" "id1" "boom" ⟨"B", "b@x.com", none, none, none, "id2"⟩
    0 7 (fun _ => Except.error "boom") (fun _ => rfl) rfl (by decide)

/-- C2 (failing input): a first signup-challenge request for a fresh email
succeeds (HTTP 200) and stores the pending challenge; the immediate second
request for the same email — the resend — is rejected with HTTP 400
"User with this email already exists.": no new challenge is issued, no
mail is handed to the transport, and the prior pending code is not
overwritten, contradicting the specified resend-overwrite transition. -/
theorem signup_resend_rejected :
    (requestSignupOtp (fun _ => Except.ok ()) [] "Alice" none "a@x.com"
        0 0 "id1").response.status = 200 ∧
    requestSignupOtp (fun _ => Except.ok ())
        (requestSignupOtp (fun _ => Except.ok ()) [] "Alice" none "a@x.com" 0 0 "id1").store
        "Alice" none "a@x.com" 0 5000 "id2" =
      ⟨⟨400, none, "User with this email already exists.", none⟩,
        (requestSignupOtp (fun _ => Except.ok ()) [] "Alice" none "a@x.com" 0 0 "id1").store,
        [], []⟩ :=
  ⟨rfl, rfl⟩

/-- C3 counterexample: the two failing login-completion runs — one with an
email that has no account, one with an existing account but a wrong
code — both answer HTTP 400, yet their responses differ, so the
user-visible failure does reveal which case occurred. -/
theorem login_failures_distinguishable :
    (login [] "a@x.com" "222222" 0 (fun i => i)).response.status = 400 ∧
    (login [⟨"A", "a@x.com", none, some "111111", some 1000, "id1"⟩]
        "a@x.com" "222222" 0 (fun i => i)).response.status = 400 ∧
    (login [] "a@x.com" "222222" 0 (fun i => i)).response ≠
      (login [⟨"A", "a@x.com", none, some "111111", some 1000, "id1"⟩]
        "a@x.com" "222222" 0 (fun i => i)).response := by decide

/-- C3 (amended): for the two failed login-completion cases — unknown
email versus existing account with a wrong code — the HTTP status is the
same 400 and neither response carries a token, but the response messages
differ ("Invalid credentials." versus "Invalid or expired OTP."), so the
body distinguishes the two cases. -/
theorem login_failures_same_status_distinct_message (s1 s2 : List User)
    (email1 email2 code1 code2 : String) (n1 n2 : Nat)
    (sg1 sg2 : String → String) (u : User)
    (h1 : findOne s1 email1 = none) (h2 : findOne s2 email2 = some u)
    (hw : u.otp ≠ some code2) :
    (login s1 email1 code1 n1 sg1).response =
      ⟨400, none, "Invalid credentials.", none⟩ ∧
    (login s2 email2 code2 n2 sg2).response =
      ⟨400, none, "Invalid or expired OTP.", none⟩ ∧
    (login s1 email1 code1 n1 sg1).response.status =
      (login s2 email2 code2 n2 sg2).response.status ∧
    (login s1 email1 code1 n1 sg1).response.message ≠
      (login s2 email2 code2 n2 sg2).response.message := by
  have hbeq : (u.otp == some code2) = false := by
    simp [hw]
  have hi : otpInvalid u code2 n2 = true := by
    unfold otpInvalid
    rw [hbeq]
    simp
  have e1 : (login s1 email1 code1 n1 sg1).response =
      ⟨400, none, "Invalid credentials.", none⟩ := by
    unfold login
    rw [h1]
  have e2 : (login s2 email2 code2 n2 sg2).response =
      ⟨400, none, "Invalid or expired OTP.", none⟩ := by
    unfold login
    rw [h2]
    simp [hi]
  exact ⟨e1, e2, by rw [e1, e2], by rw [e1, e2]; decide⟩

/-- C3 amended-claim witness. -/
theorem login_failures_same_status_distinct_message_witness :
    (login [] "a@x.com" "222222" 0 (fun i => i)).response =
      ⟨400, none, "Invalid credentials.", none⟩ ∧
    (login [⟨"A", "a@x.com", none, some "111111", some 1000, "id1"⟩]
        "a@x.com" "222222" 0 (fun i => i)).response =
      ⟨400, none, "Invalid or expired OTP.", none⟩ ∧
    (login [] "a@x.com" "222222" 0 (fun i => i)).response.status =
      (login [⟨"A", "a@x.com", none, some "111111", some 1000, "id1"⟩]
        "a@x.com" "222222" 0 (fun i => i)).response.status ∧
    (login [] "a@x.com" "222222" 0 (fun i => i)).response.message ≠
      (login [⟨"A", "a@x.com", none, some "111111", some 1000, "id1"⟩]
        "a@x.com" "222222" 0 (fun i => i)).response.message :=
  login_failures_same_status_distinct_message []
    [⟨"A", "a@x.com", none, some "111111", some 1000, "id1"⟩]
    "a@x.com" "a@x.com" "222222" "222222" 0 0 (fun i => i) (fun i => i)
    ⟨"A", "a@x.com", none, some "111111", some 1000, "id1"⟩
    rfl (by decide) (by decide)

/-- C10: the session-verification guard takes as token the second
space-separated segment of the Authorization header without checking that
the scheme word is "Bearer": any header "<word> <token>" whose non-empty
second segment verifies is accepted with the decoded user id, while an
absent header, or a header without a second segment, is rejected with 401
before the protected handler runs. -/
theorem authMiddleware_token_extraction (verify : String → Option String)
    (h h' t uid : String)
    (hsplit : (jsSplit h ' ')[1]? = some t) (hne : t ≠ "")
    (hv : verify t = some uid)
    (hs' : (jsSplit h' ' ')[1]? = none) :
    authMiddleware verify (some h) = AuthDecision.proceed uid ∧
    authMiddleware verify none =
      AuthDecision.unauthorized 401 "No token, authorization denied." ∧
    authMiddleware verify (some h') =
      AuthDecision.unauthorized 401 "No token, authorization denied." := by
  refine ⟨?_, rfl, ?_⟩
  · unfold authMiddleware extractToken
    simp [hsplit, hne, hv]
  · unfold authMiddleware extractToken
    simp [hs']

/-- C10 witness: the scheme word "Token" (not "Bearer") is accepted; a
missing header and a header without a second segment are rejected 401. -/
theorem authMiddleware_token_extraction_witness :
    authMiddleware (fun s => if s = "tok123" then some "u7" else none)
        (some "Token tok123") = AuthDecision.proceed "u7" ∧
    authMiddleware (fun s => if s = "tok123" then some "u7" else none) none =
      AuthDecision.unauthorized 401 "No token, authorization denied." ∧
    authMiddleware (fun s => if s = "tok123" then some "u7" else none)
        (some "tok123") =
      AuthDecision.unauthorized 401 "No token, authorization denied." :=
  authMiddleware_token_extraction (fun s => if s = "tok123" then some "u7" else none)
    "Token tok123" "tok123" "tok123" "u7" (by decide) (by decide) (by decide) (by decide)

end TakeNotes
